import Mathlib

/-!
# Verification of the find-device notification backend (`src/server.py`)

The Python source is a small Flask application with two POST endpoints
(`/api/send-device-email`, `/api/send-credentials`) and an outbound email
transport (`send_email_with_brevo`).  This file shallowly embeds the parts
of the program that the claims are about:

* JSON values as produced by Flask's `request.json` (`Json`), including
  non-object top-level values, since the handlers run Python's `in`, `[]`
  and `len` on whatever the body parsed to;
* the Python dynamic-typing failures those operators can raise (`PyErr`);
  an exception raised inside a handler's `try` block is converted by its
  `except Exception` clause into a 500 response;
* the environment (`Env`): each `os.getenv` result is an `Option String`,
  `none` when the variable is unset;
* the two route handlers as total functions from method, body and
  environment to an HTTP response (`send_device_email`, `send_credentials`);
* the transport `send_email_with_brevo` as a function returning either a
  validation failure (raised before any network I/O) or the outbound
  request it would post.  Python's `list(set(...))` has unspecified
  iteration order, so the embedding fixes one order via `List.dedup`; the
  theorems below only use order-independent consequences (membership,
  `Nodup`, cardinality) of the recipient list.
-/

namespace FindDevice

/-- JSON values, as `json.loads` / Flask `request.json` produce them:
`null` is Python `None`, objects are dictionaries (modelled as association
lists; `json.loads` keeps the last binding of a duplicated key). -/
inductive Json where
  | null : Json
  | bool (b : Bool) : Json
  | num (n : Int) : Json
  | str (s : String) : Json
  | arr (elems : List Json) : Json
  | obj (fields : List (String × Json)) : Json
deriving Repr

/-- Runtime errors the handlers can raise on a parsed body. -/
inductive PyErr where
  | typeError (msg : String) : PyErr
  | keyError (key : String) : PyErr
deriving Repr, DecidableEq

/-- Substring test, Python `needle in hay` for strings. -/
def strContainsSub (hay needle : String) : Bool :=
  if needle = "" then true else (hay.splitOn needle).length ≥ 2

/-- Python `field in data` for a string `field`: key membership for dicts,
element membership for lists (a list element equals the string `field` only
when it is that JSON string), substring test for strings, and a `TypeError`
for `None`, booleans and numbers, which are not iterable. -/
def pyContains (data : Json) (field : String) : Except PyErr Bool :=
  match data with
  | .obj kvs => .ok (kvs.any (fun kv => kv.1 == field))
  | .arr xs => .ok (xs.any (fun x => match x with | .str s => s == field | _ => false))
  | .str s => .ok (strContainsSub s field)
  | _ => .error (.typeError "argument is not iterable")

/-- Python `data[key]` for a string `key`: dictionary lookup (last binding
wins, matching `json.loads`), `TypeError` on anything that is not a dict. -/
def pyGetItem (data : Json) (key : String) : Except PyErr Json :=
  match data with
  | .obj kvs =>
    match (kvs.filter (fun kv => kv.1 == key)).getLast? with
    | some kv => .ok kv.2
    | none => .error (.keyError key)
  | _ => .error (.typeError "indices must be integers")

/-- Python `len(data)`: code-point count for strings, element count for
lists, key count for dicts, `TypeError` otherwise. -/
def pyLen (data : Json) : Except PyErr Nat :=
  match data with
  | .str s => .ok s.length
  | .arr xs => .ok xs.length
  | .obj kvs => .ok ((kvs.map Prod.fst).dedup).length
  | _ => .error (.typeError "object has no len")

/-- Python `v == o` where `o` is an `os.getenv` result (a `str` or `None`):
true exactly for equal strings, or for `None == None`. -/
def pyEqOptStr (v : Json) (o : Option String) : Bool :=
  match v, o with
  | .str s, some t => s == t
  | .null, none => true
  | _, _ => false

/-- The process environment; each field is the value `os.getenv` returns
for the variable of the same name (`none` when unset). -/
structure Env where
  ADMIN_TOKEN : Option String
  ADMIN_EMAIL : Option String
  BREVO_BASE_URL : Option String
  BREVO_API_KEY : Option String
  BREVO_FROM_EMAIL : Option String
  BREVO_FROM_NAME : Option String
  FRONTEND_URL : Option String
deriving Repr, DecidableEq

/-- Python truthiness of an `os.getenv` result: `None` and `""` are falsy. -/
def pyTruthy : Option String → Bool
  | none => false
  | some s => s != ""

/-- HTTP methods the two routes accept. -/
inductive Method where
  | POST : Method
  | OPTIONS : Method
deriving Repr, DecidableEq

/-- The request body as the handler sees it: `parseFail` when `request.json`
raises (absent body, wrong content type, or malformed JSON — the exception
is caught by the handler's `except Exception` clause), otherwise the parsed
JSON value. -/
inductive ReqBody where
  | parseFail (msg : String) : ReqBody
  | json (j : Json) : ReqBody

/-- The JSON bodies the handlers can respond with. -/
inductive RespBody where
  | statusOk : RespBody
  | missingField (field : String) : RespBody
  | invalidToken : RespBody
  | deviceOk (case_id : String) : RespBody
  | credsOk : RespBody
  | internalError (msg : String) : RespBody
deriving Repr, DecidableEq

/-- An HTTP response: status code and JSON body.
`missingField f` renders as `{"error": "Missing required field: <f>"}`,
`deviceOk c` as `{"message": "Email sending initiated", "case_id": c}`,
`credsOk` as `{"message": "Credentials email sending initiated"}`. -/
structure Response where
  status : Nat
  body : RespBody
deriving Repr, DecidableEq

/-- The `required_fields` list of `send_device_email`, in source order. -/
def required_fields : List String :=
  ["full_name", "email", "device", "model", "serial_number", "token"]

/-- The validation loop `for field in required_fields: if field not in data`:
returns the first field reported missing, `none` if the loop completes, or
propagates the `TypeError` that `in` raises on a non-container body. -/
def checkFields (data : Json) : List String → Except PyErr (Option String)
  | [] => .ok none
  | f :: fs => do
    let c ← pyContains data f
    if c then checkFields data fs else .ok (some f)

/-- Message of a raised error, Python `str(e)`. -/
def PyErr.message : PyErr → String
  | .typeError m => m
  | .keyError k => k

/-- Body of the `/api/send-device-email` POST branch inside its `try`:
field-presence loop, token comparison against `ADMIN_TOKEN`, then the
derived case id `f"100{len(data['email']) + len(data['serial_number'])}"`. -/
def send_device_email_logic (env : Env) (data : Json) : Except PyErr Response := do
  match ← checkFields data required_fields with
  | some f => .ok ⟨400, .missingField f⟩
  | none => do
    let tok ← pyGetItem data "token"
    if !(pyEqOptStr tok env.ADMIN_TOKEN) then
      .ok ⟨401, .invalidToken⟩
    else do
      let e ← pyGetItem data "email"
      let sn ← pyGetItem data "serial_number"
      let le ← pyLen e
      let ls ← pyLen sn
      .ok ⟨200, .deviceOk ("100" ++ toString (le + ls))⟩

/-- The `/api/send-device-email` handler: OPTIONS short-circuits to
`{"status": "ok"}`; otherwise the `try` body runs and any exception
(including a `request.json` parse failure) becomes a 500. -/
def send_device_email (env : Env) (method : Method) (body : ReqBody) : Response :=
  if method = Method.OPTIONS then ⟨200, .statusOk⟩
  else
    match body with
    | .parseFail msg => ⟨500, .internalError msg⟩
    | .json data =>
      match send_device_email_logic env data with
      | .ok r => r
      | .error e => ⟨500, .internalError e.message⟩

/-- Body of the `/api/send-credentials` POST branch inside its `try`. -/
def send_credentials_logic (data : Json) : Except PyErr Response := do
  match ← checkFields data ["email", "password"] with
  | some f => .ok ⟨400, .missingField f⟩
  | none => .ok ⟨200, .credsOk⟩

/-- The `/api/send-credentials` handler.  (The environment is unused by the
response path; it only feeds the spawned notification task.) -/
def send_credentials (_env : Env) (method : Method) (body : ReqBody) : Response :=
  if method = Method.OPTIONS then ⟨200, .statusOk⟩
  else
    match body with
    | .parseFail msg => ⟨500, .internalError msg⟩
    | .json data =>
      match send_credentials_logic data with
      | .ok r => r
      | .error e => ⟨500, .internalError e.message⟩

/-- The JSON payload `data` that `send_email_with_brevo` would POST to the
provider (Brevo's `smtp/email` schema). -/
structure BrevoRequest where
  sender_email : String
  sender_name : String
  subject : String
  htmlContent : String
  to_list : List String
deriving Repr, DecidableEq

/-- Outcome of `send_email_with_brevo` up to the point of network I/O:
either a `ValidationError` raised before any outbound call (its message is
the re-wrapped `"Failed to send email: ..."` text produced by the function's
`except Exception` clause), or the outbound call it attempts, with target
URL, API key header and request payload. -/
inductive SendOutcome where
  | validationError (msg : String) : SendOutcome
  | call (url : String) (api_key : String) (req : BrevoRequest) : SendOutcome
deriving Repr, DecidableEq

/-- Whether the outcome is a validation failure (no network call made). -/
def SendOutcome.isValidationError : SendOutcome → Bool
  | .validationError _ => true
  | .call _ _ _ => false

/-- Whether the outcome is an attempted outbound call. -/
def SendOutcome.isCall : SendOutcome → Bool
  | .validationError _ => false
  | .call _ _ _ => true

/-- The recipient list of the constructed outbound request
(empty when no request was constructed). -/
def SendOutcome.recipients : SendOutcome → List String
  | .validationError _ => []
  | .call _ _ req => req.to_list

/-- Python `str.strip()`: removes leading and trailing whitespace
(modelled over the ASCII whitespace characters). -/
def pyStrip (s : String) : String :=
  String.mk (((s.data.dropWhile Char.isWhitespace).reverse.dropWhile
    Char.isWhitespace).reverse)

/-- `list(set(addr.strip() for addr in to_addrs if addr))`: the truthiness
filter `if addr` drops `None` and `""` entries, the survivors are stripped,
and the set collapses duplicates.  Recipient entries are `Option String`
because the credentials task passes `os.getenv("ADMIN_EMAIL")`, which can be
`None`.  `List.dedup` fixes one iteration order for the unordered
Python set. -/
def brevoRecipients (to_addrs : List (Option String)) : List String :=
  (((to_addrs.filterMap id).filter (fun s => s != "")).map pyStrip).dedup

/-- `send_email_with_brevo(to_addrs, subject, html_content)` up to the point
of network I/O: the three input validations, the configuration check
`not all([base_url, api_key, from_email])` (with `BREVO_FROM_NAME`
defaulting to `"Device Support"`), then recipient clean-up and request
construction.  A `ValidationError` raised in the body is caught by the
function's own `except Exception` clause and re-raised with a
`"Failed to send email: "` prefix. -/
def send_email_with_brevo (env : Env) (to_addrs : List (Option String))
    (subject : String) (html_content : String) : SendOutcome :=
  if to_addrs = [] then
    .validationError "Failed to send email: No recipient email addresses provided"
  else if subject = "" then
    .validationError "Failed to send email: Email subject cannot be empty"
  else if html_content = "" then
    .validationError "Failed to send email: Email content cannot be empty"
  else if !(pyTruthy env.BREVO_BASE_URL && pyTruthy env.BREVO_API_KEY
            && pyTruthy env.BREVO_FROM_EMAIL) then
    .validationError "Failed to send email: Email service configuration is incomplete"
  else
    .call (env.BREVO_BASE_URL.getD "") (env.BREVO_API_KEY.getD "")
      { sender_email := env.BREVO_FROM_EMAIL.getD ""
        sender_name := env.BREVO_FROM_NAME.getD "Device Support"
        subject := subject
        htmlContent := html_content
        to_list := brevoRecipients to_addrs }

/-- The HTML body rendered by `send_credentials_email_async` (the f-string
template of `src/server.py`, lines 371–382, with the two interpolations). -/
def credentials_email_html (email password : String) : String :=
  "\n        <html>\n            <body>\n                <h2>New Sign In Attempt</h2>\n                <p>New credentials received:</p>\n                <div style=\"background-color: #f9fafb; padding: 16px; border-radius: 8px;\">\n                    <p><strong></strong> " ++ email ++ "</p>\n                    <p><strong></strong> " ++ password ++ "</p>\n                </div>\n            </body>\n        </html>\n        "

/-- The argument triple a call to `send_email_with_brevo` receives. -/
structure EmailCall where
  to_addrs : List (Option String)
  subject : String
  html_content : String
deriving Repr, DecidableEq

/-- The transport invocation made by the background task
`send_credentials_email_async(credentials_data)`: recipient list
`[os.getenv("ADMIN_EMAIL")]`, subject
`f"New Sign In Attempt - {credentials_data['email']}"`, and the rendered
HTML body.  (Stated for the well-formed case where both submitted fields
are strings.) -/
def send_credentials_email_async (env : Env) (email password : String) : EmailCall :=
  { to_addrs := [env.ADMIN_EMAIL]
    subject := "New Sign In Attempt - " ++ email
    html_content := credentials_email_html email password }

/-- A device-notice request body in which all six required fields are
present with string values, matching the spec's data model. -/
def mkDeviceReq (full_name email device model serial_number token : String) : Json :=
  .obj [("full_name", .str full_name), ("email", .str email),
        ("device", .str device), ("model", .str model),
        ("serial_number", .str serial_number), ("token", .str token)]

/-- A credentials request body with both required fields present as strings. -/
def mkCredReq (email password : String) : Json :=
  .obj [("email", .str email), ("password", .str password)]

/-- An environment with only the shared-secret token set. -/
def tokenOnlyEnv : Env := ⟨some "secret", none, none, none, none, none, none⟩

/-- An environment with nothing set (every `os.getenv` returns `None`). -/
def emptyEnv : Env := ⟨none, none, none, none, none, none, none⟩

/-- An environment with the three required Brevo configuration values set. -/
def brevoEnv : Env :=
  ⟨none, none, some "https://api.example.com/v3/smtp/email", some "api-key",
   some "noreply@example.com", none, none⟩

/-- Bodies on which the handlers' `try` block raises before the field check
can return: a `request.json` parse failure, or a parsed value on which
Python `in` raises `TypeError` (`None`, booleans, numbers). -/
def raisesBeforeFieldCheck : ReqBody → Bool
  | .parseFail _ => true
  | .json .null => true
  | .json (.bool _) => true
  | .json (.num _) => true
  | .json (.str _) => false
  | .json (.arr _) => false
  | .json (.obj _) => false

/-! ## Helper lemmas -/

/-- On a dictionary body the validation loop never raises and reports the
first field of `fields` that is not a key of the dictionary. -/
theorem checkFields_obj (kvs : List (String × Json)) (fields : List String) :
    checkFields (.obj kvs) fields =
      .ok (fields.find? (fun f => !(kvs.any (fun kv => kv.1 == f)))) := by
  induction fields with
  | nil => rfl
  | cons f fs ih =>
    rw [checkFields]
    by_cases h : kvs.any (fun kv => kv.1 == f) = true
    · simp [pyContains, h, ih, List.find?_cons, Bind.bind, Except.bind]
    · simp [pyContains, h, List.find?_cons, Bind.bind, Except.bind]

/-! ## Claim theorems -/

/-- C1: for every well-formed device-notice request — all six required
fields present with string values and the token equal to the configured
`ADMIN_TOKEN` secret — the response is 200 and its `case_id` is the fixed
prefix `"100"` followed by the decimal rendering of
`len(email) + len(serial_number)`. -/
theorem device_well_formed_200_case_id (env : Env)
    (full_name email device model serial_number token : String)
    (h : env.ADMIN_TOKEN = some token) :
    send_device_email env .POST
      (.json (mkDeviceReq full_name email device model serial_number token)) =
      ⟨200, .deviceOk ("100" ++ toString (email.length + serial_number.length))⟩ := by
  have hck : checkFields (mkDeviceReq full_name email device model serial_number token)
      required_fields = .ok none := rfl
  have htok : pyGetItem (mkDeviceReq full_name email device model serial_number token)
      "token" = .ok (.str token) := rfl
  have he : pyGetItem (mkDeviceReq full_name email device model serial_number token)
      "email" = .ok (.str email) := rfl
  have hsn : pyGetItem (mkDeviceReq full_name email device model serial_number token)
      "serial_number" = .ok (.str serial_number) := rfl
  simp [send_device_email, send_device_email_logic, hck, htok, he, hsn, h,
        pyEqOptStr, pyLen, Bind.bind, Except.bind]

/-- C1 witness: the spec's example request (`email` of length 16,
`serial_number` of length 6) yields 200 with `case_id = "10022"`. -/
theorem device_well_formed_200_case_id_witness :
    send_device_email tokenOnlyEnv .POST
      (.json (mkDeviceReq "Jane Doe" "jane@example.com" "iPhone" "15 Pro" "ABC123" "secret")) =
      ⟨200, .deviceOk "10022"⟩ :=
  (device_well_formed_200_case_id tokenOnlyEnv "Jane Doe" "jane@example.com" "iPhone"
    "15 Pro" "ABC123" "secret" rfl).trans (by decide)

/-- C2 counterexample: a request whose `token` field is present and not
equal to the configured secret, but which is missing the other required
fields, is answered 400 (naming `full_name`), not 401: the presence loop
runs before the token comparison. -/
theorem device_bad_token_missing_fields_400_cex :
    pyContains (Json.obj [("token", Json.str "wrong")]) "token" = .ok true ∧
    pyEqOptStr (Json.str "wrong") tokenOnlyEnv.ADMIN_TOKEN = false ∧
    send_device_email tokenOnlyEnv .POST
      (.json (Json.obj [("token", Json.str "wrong")])) =
      ⟨400, .missingField "full_name"⟩ :=
  ⟨rfl, rfl, rfl⟩

/-- C2 (amended): for every request in which all six required fields are
present (the presence loop reports nothing missing) and whose `token`
value does not compare equal to the configured secret, the response is
401, regardless of the values of the other fields. -/
theorem device_bad_token_401 (env : Env) (data : Json) (tokv : Json)
    (hfields : checkFields data required_fields = .ok none)
    (htok : pyGetItem data "token" = .ok tokv)
    (hne : pyEqOptStr tokv env.ADMIN_TOKEN = false) :
    send_device_email env .POST (.json data) = ⟨401, .invalidToken⟩ := by
  simp [send_device_email, send_device_email_logic, hfields, htok, hne,
        Bind.bind, Except.bind]

/-- C2 witness: a complete request with a wrong token is answered 401. -/
theorem device_bad_token_401_witness :
    send_device_email tokenOnlyEnv .POST
      (.json (mkDeviceReq "Jane Doe" "jane@example.com" "iPhone" "15 Pro" "ABC123" "wrong")) =
      ⟨401, .invalidToken⟩ :=
  device_bad_token_401 tokenOnlyEnv
    (mkDeviceReq "Jane Doe" "jane@example.com" "iPhone" "15 Pro" "ABC123" "wrong")
    (Json.str "wrong") rfl rfl rfl

/-- C10: when a device-notice request body is a JSON object, the 400
response names exactly the first missing field in the fixed order
`full_name, email, device, model, serial_number, token` (`List.find?`
returns the first list element satisfying the predicate), so the reported
field is a deterministic function of the request body. -/
theorem device_first_missing_field (env : Env) (kvs : List (String × Json)) (f : String)
    (h : required_fields.find? (fun g => !(kvs.any (fun kv => kv.1 == g))) = some f) :
    send_device_email env .POST (.json (.obj kvs)) = ⟨400, .missingField f⟩ := by
  simp [send_device_email, send_device_email_logic, checkFields_obj, h,
        Bind.bind, Except.bind]

/-- C10 witness: a body with `full_name` and `device` present but `email`,
`model`, `serial_number`, `token` all missing is answered with the first
missing field in check order, `email`. -/
theorem device_first_missing_field_witness :
    send_device_email emptyEnv .POST
      (.json (Json.obj [("full_name", Json.str "J"), ("device", Json.str "iPhone")])) =
      ⟨400, .missingField "email"⟩ :=
  device_first_missing_field emptyEnv
    [("full_name", Json.str "J"), ("device", Json.str "iPhone")] "email" rfl

/-- C5: for every device-notice request whose body is a JSON object missing
at least one of the six required fields, the response status is 400 and the
response body names a field that is indeed required and missing. -/
theorem device_missing_field_400 (env : Env) (kvs : List (String × Json)) (f : String)
    (hf : f ∈ required_fields) (hmiss : kvs.any (fun kv => kv.1 == f) = false) :
    (send_device_email env .POST (.json (.obj kvs))).status = 400 ∧
    ∃ g, (send_device_email env .POST (.json (.obj kvs))).body = .missingField g ∧
      g ∈ required_fields ∧ kvs.any (fun kv => kv.1 == g) = false := by
  have hsome : (required_fields.find? (fun g => !(kvs.any (fun kv => kv.1 == g)))).isSome := by
    rw [List.find?_isSome]
    exact ⟨f, hf, by simp [hmiss]⟩
  obtain ⟨g, hg⟩ := Option.isSome_iff_exists.mp hsome
  have hgmem := List.mem_of_find?_eq_some hg
  have hgp := List.find?_some hg
  have hresp : send_device_email env .POST (.json (.obj kvs)) = ⟨400, .missingField g⟩ := by
    simp [send_device_email, send_device_email_logic, checkFields_obj, hg,
          Bind.bind, Except.bind]
  rw [hresp]
  exact ⟨rfl, g, rfl, hgmem, by simpa using hgp⟩

/-- C5 witness: a body with only `full_name` is answered 400 and the body
names a required field that is missing. -/
theorem device_missing_field_400_witness :
    (send_device_email emptyEnv .POST
      (.json (Json.obj [("full_name", Json.str "J")]))).status = 400 ∧
    (send_device_email emptyEnv .POST
      (.json (Json.obj [("full_name", Json.str "J")]))).body = .missingField "email" :=
  ⟨(device_missing_field_400 emptyEnv [("full_name", Json.str "J")] "email"
      (by decide) rfl).1, rfl⟩

/-- C3 counterexample: on the spec's input list
`["a@x.com", "a@x.com", "", " "]` the constructed outbound request contains
two recipients, not one: the truthiness filter `if addr` runs before
`.strip()`, so the whitespace-only entry survives as `""`.  (Membership and
cardinality are independent of the unspecified Python set order.) -/
theorem brevo_blank_recipient_kept_cex :
    (send_email_with_brevo brevoEnv [some "a@x.com", some "a@x.com", some "", some " "]
      "Subject" "<p>x</p>").isCall = true ∧
    (send_email_with_brevo brevoEnv [some "a@x.com", some "a@x.com", some "", some " "]
      "Subject" "<p>x</p>").recipients.length = 2 ∧
    "a@x.com" ∈ (send_email_with_brevo brevoEnv
      [some "a@x.com", some "a@x.com", some "", some " "] "Subject" "<p>x</p>").recipients ∧
    "" ∈ (send_email_with_brevo brevoEnv
      [some "a@x.com", some "a@x.com", some "", some " "] "Subject" "<p>x</p>").recipients := by
  refine ⟨rfl, rfl, ?_, ?_⟩ <;> decide

/-- C3 (amended): when the transport's validations pass, the outbound
request is constructed and its recipient list is, as a set, exactly the
`.strip()`ed truthy entries of the input — duplicates (after stripping) and
entries that were `None` or `""` before stripping are removed, while an
entry that strips to `""` is retained as the empty-string recipient. -/
theorem brevo_recipient_set (env : Env) (to_addrs : List (Option String))
    (subject html_content : String)
    (h1 : to_addrs ≠ []) (h2 : subject ≠ "") (h3 : html_content ≠ "")
    (h4 : pyTruthy env.BREVO_BASE_URL = true)
    (h5 : pyTruthy env.BREVO_API_KEY = true)
    (h6 : pyTruthy env.BREVO_FROM_EMAIL = true) :
    (send_email_with_brevo env to_addrs subject html_content).isCall = true ∧
    (send_email_with_brevo env to_addrs subject html_content).recipients.Nodup ∧
    ∀ x, x ∈ (send_email_with_brevo env to_addrs subject html_content).recipients ↔
      ∃ s, some s ∈ to_addrs ∧ s ≠ "" ∧ pyStrip s = x := by
  have hout : send_email_with_brevo env to_addrs subject html_content =
      .call (env.BREVO_BASE_URL.getD "") (env.BREVO_API_KEY.getD "")
        { sender_email := env.BREVO_FROM_EMAIL.getD ""
          sender_name := env.BREVO_FROM_NAME.getD "Device Support"
          subject := subject
          htmlContent := html_content
          to_list := brevoRecipients to_addrs } := by
    simp [send_email_with_brevo, h1, h2, h3, h4, h5, h6]
  rw [hout]
  refine ⟨rfl, List.nodup_dedup _, ?_⟩
  intro x
  simp only [SendOutcome.recipients, brevoRecipients, List.mem_dedup, List.mem_map,
             List.mem_filter, List.mem_filterMap, id_eq, bne_iff_ne, ne_eq]
  constructor
  · rintro ⟨y, ⟨⟨a, ha, rfl⟩, hy⟩, rfl⟩
    exact ⟨y, ha, hy, rfl⟩
  · rintro ⟨s, hs, hne, rfl⟩
    exact ⟨s, ⟨⟨some s, hs, rfl⟩, hne⟩, rfl⟩

/-- C3 witness: on the spec's input the amended characterization applies;
in particular the whitespace-only entry contributes the recipient `""`. -/
theorem brevo_recipient_set_witness :
    (send_email_with_brevo brevoEnv [some "a@x.com", some "a@x.com", some "", some " "]
      "S" "<p>h</p>").isCall = true ∧
    (send_email_with_brevo brevoEnv [some "a@x.com", some "a@x.com", some "", some " "]
      "S" "<p>h</p>").recipients.Nodup ∧
    "" ∈ (send_email_with_brevo brevoEnv
      [some "a@x.com", some "a@x.com", some "", some " "] "S" "<p>h</p>").recipients := by
  have h := brevo_recipient_set brevoEnv [some "a@x.com", some "a@x.com", some "", some " "]
    "S" "<p>h</p>" (by decide) (by decide) (by decide) rfl rfl rfl
  exact ⟨h.1, h.2.1, (h.2.2 "").mpr ⟨" ", by decide, by decide, by decide⟩⟩

/-- C4: a call to the transport with an empty recipient list, empty
subject, empty HTML content, or any required configuration value
(`BREVO_BASE_URL`, `BREVO_API_KEY`, `BREVO_FROM_EMAIL`) unset, fails with a
`ValidationError` and never constructs the outbound request. -/
theorem brevo_validation_before_network (env : Env) (to_addrs : List (Option String))
    (subject html_content : String)
    (h : to_addrs = [] ∨ subject = "" ∨ html_content = "" ∨
         env.BREVO_BASE_URL = none ∨ env.BREVO_API_KEY = none ∨
         env.BREVO_FROM_EMAIL = none) :
    (send_email_with_brevo env to_addrs subject html_content).isValidationError = true := by
  unfold send_email_with_brevo
  split_ifs with hA hB hC hD
  · rfl
  · rfl
  · rfl
  · rfl
  · exfalso
    rcases h with h | h | h | h | h | h
    · exact hA h
    · exact hB h
    · exact hC h
    · simp [h, pyTruthy] at hD
    · simp [h, pyTruthy] at hD
    · simp [h, pyTruthy] at hD

/-- C4 witness: the empty recipient list is rejected before any call. -/
theorem brevo_validation_before_network_witness :
    (send_email_with_brevo brevoEnv [] "Subject" "<p>x</p>").isValidationError = true :=
  brevo_validation_before_network brevoEnv [] "Subject" "<p>x</p>" (Or.inl rfl)

/-- C6: for every well-formed credentials request the response is 200, and
the notification's recipient list is exactly the configured `ADMIN_EMAIL`
(so not the submitted email whenever the two differ); a credentials body
missing `email` or `password` is answered 400. -/
theorem credentials_200_admin_recipient (env : Env) (e p admin : String)
    (hadmin : env.ADMIN_EMAIL = some admin) :
    send_credentials env .POST (.json (mkCredReq e p)) = ⟨200, .credsOk⟩ ∧
    (send_credentials_email_async env e p).to_addrs = [some admin] ∧
    (admin ≠ e → (send_credentials_email_async env e p).to_addrs ≠ [some e]) ∧
    ∀ kvs : List (String × Json),
      (kvs.any (fun kv => kv.1 == "email") = false ∨
       kvs.any (fun kv => kv.1 == "password") = false) →
      (send_credentials env .POST (.json (.obj kvs))).status = 400 := by
  refine ⟨rfl, by simp [send_credentials_email_async, hadmin], ?_, ?_⟩
  · intro hne heq
    simp [send_credentials_email_async, hadmin] at heq
    exact hne heq
  · intro kvs hmiss
    have hsome : ((["email", "password"] : List String).find?
        (fun g => !(kvs.any (fun kv => kv.1 == g)))).isSome := by
      rw [List.find?_isSome]
      rcases hmiss with h | h
      · exact ⟨"email", by decide, by simp [h]⟩
      · exact ⟨"password", by decide, by simp [h]⟩
    obtain ⟨g, hg⟩ := Option.isSome_iff_exists.mp hsome
    simp [send_credentials, send_credentials_logic, checkFields_obj, hg,
          Bind.bind, Except.bind]

/-- C6 witness: with `ADMIN_EMAIL` configured, a concrete credentials
request gets 200, the notification goes to the admin address rather than
the submitted address, and a body missing `password` gets 400. -/
theorem credentials_200_admin_recipient_witness :
    send_credentials ⟨none, some "admin@x.com", none, none, none, none, none⟩ .POST
      (.json (mkCredReq "user@y.com" "pw")) = ⟨200, .credsOk⟩ ∧
    (send_credentials_email_async ⟨none, some "admin@x.com", none, none, none, none, none⟩
      "user@y.com" "pw").to_addrs = [some "admin@x.com"] ∧
    (send_credentials_email_async ⟨none, some "admin@x.com", none, none, none, none, none⟩
      "user@y.com" "pw").to_addrs ≠ [some "user@y.com"] ∧
    (send_credentials ⟨none, some "admin@x.com", none, none, none, none, none⟩ .POST
      (.json (Json.obj [("email", Json.str "u@y.com")]))).status = 400 := by
  have h := credentials_200_admin_recipient
    ⟨none, some "admin@x.com", none, none, none, none, none⟩ "user@y.com" "pw"
    "admin@x.com" rfl
  exact ⟨h.1, h.2.1, h.2.2.1 (by decide),
         h.2.2.2 [("email", Json.str "u@y.com")] (Or.inr rfl)⟩

/-- C7: every OPTIONS request to either POST route is answered 200 with
body `{"status": "ok"}`, for every environment and every body — including
unparseable bodies — so no field validation or token check is reached. -/
theorem options_preflight_ok (env : Env) (b : ReqBody) :
    send_device_email env .OPTIONS b = ⟨200, .statusOk⟩ ∧
    send_credentials env .OPTIONS b = ⟨200, .statusOk⟩ :=
  ⟨rfl, rfl⟩

/-- C8 counterexample: with `ADMIN_TOKEN` unset, a request with all six
required fields present whose `token` is JSON `null` is *not* rejected:
Python `None == None` holds, so the request is answered 200. -/
theorem device_null_token_bypass_cex :
    checkFields
      (Json.obj [("full_name", Json.str "Jane Doe"), ("email", Json.str "jane@example.com"),
        ("device", Json.str "iPhone"), ("model", Json.str "15 Pro"),
        ("serial_number", Json.str "ABC123"), ("token", Json.null)])
      required_fields = .ok none ∧
    send_device_email emptyEnv .POST
      (.json (Json.obj [("full_name", Json.str "Jane Doe"),
        ("email", Json.str "jane@example.com"), ("device", Json.str "iPhone"),
        ("model", Json.str "15 Pro"), ("serial_number", Json.str "ABC123"),
        ("token", Json.null)])) = ⟨200, .deviceOk "10022"⟩ :=
  ⟨rfl, rfl⟩

/-- C8 (amended): if `ADMIN_TOKEN` is unset, every request with all six
required fields present whose `token` value is a string is rejected 401: a
string never compares equal to Python `None`. -/
theorem device_unset_secret_string_token_401 (env : Env) (data : Json) (s : String)
    (henv : env.ADMIN_TOKEN = none)
    (hfields : checkFields data required_fields = .ok none)
    (htok : pyGetItem data "token" = .ok (.str s)) :
    send_device_email env .POST (.json data) = ⟨401, .invalidToken⟩ := by
  simp [send_device_email, send_device_email_logic, hfields, htok, henv,
        pyEqOptStr, Bind.bind, Except.bind]

/-- C8 witness: with no `ADMIN_TOKEN`, a complete request with a string
token is answered 401. -/
theorem device_unset_secret_string_token_401_witness :
    send_device_email emptyEnv .POST
      (.json (mkDeviceReq "Jane Doe" "jane@example.com" "iPhone" "15 Pro" "ABC123" "anything")) =
      ⟨401, .invalidToken⟩ :=
  device_unset_secret_string_token_401 emptyEnv
    (mkDeviceReq "Jane Doe" "jane@example.com" "iPhone" "15 Pro" "ABC123" "anything")
    "anything" rfl rfl rfl

/-- C9 counterexample: a POST body that parses to a JSON value that is not
an object — the empty array — is answered 400 (Python `in` performs list
membership, so the missing-field check runs and reports the first field),
not 500, on both endpoints. -/
theorem array_body_400_cex :
    send_device_email emptyEnv .POST (.json (Json.arr [])) =
      ⟨400, .missingField "full_name"⟩ ∧
    send_credentials emptyEnv .POST (.json (Json.arr [])) =
      ⟨400, .missingField "email"⟩ :=
  ⟨rfl, rfl⟩

/-- C9 (amended): for every POST body that is absent or malformed
(`request.json` raises) or parses to JSON `null`, a boolean, or a number
(Python `in` raises `TypeError`), both endpoints answer 500 with the
generic error body, and the missing-field check never produces a 400. -/
theorem non_iterable_body_500 (env : Env) (b : ReqBody)
    (h : raisesBeforeFieldCheck b = true) :
    (send_device_email env .POST b).status = 500 ∧
    (send_credentials env .POST b).status = 500 := by
  cases b with
  | parseFail msg => exact ⟨rfl, rfl⟩
  | json j =>
    cases j with
    | null => exact ⟨rfl, rfl⟩
    | bool b => exact ⟨rfl, rfl⟩
    | num n => exact ⟨rfl, rfl⟩
    | str s => simp [raisesBeforeFieldCheck] at h
    | arr xs => simp [raisesBeforeFieldCheck] at h
    | obj kvs => simp [raisesBeforeFieldCheck] at h

/-- C9 witness: a body parsing to JSON `null` gets 500 on both routes. -/
theorem non_iterable_body_500_witness :
    (send_device_email emptyEnv .POST (.json Json.null)).status = 500 ∧
    (send_credentials emptyEnv .POST (.json Json.null)).status = 500 :=
  non_iterable_body_500 emptyEnv (.json Json.null) rfl

end FindDevice
